import Mathlib

/-!
Verification of the Solana wallet/signers layer (`wdk-wallet-solana`).

Shallow embedding of:
- `src/signers/seed-signer-solana.js` (class `SeedSignerSolana`),
- `src/signers/ledger-signer-solana.js` (class `LedgerSignerSol`),
- `src/wallet-account-solana.js` (class `WalletAccountSolana`).

Modelling conventions, fixed once and used throughout:
- A BIP-44 derivation path string such as `m/44h/501h/0h/0h` (writing `h`
  for the hardened tick) is modelled as its list of slash-separated
  segments, type `List Seg`.  String concatenation of a prefix, a slash
  and a relative path corresponds exactly to `List.append` of segment
  lists, and the source's quote-strip-then-split surgery corresponds to
  reading a segment's numeric value.
- JavaScript `undefined` is `Option.none`; a thrown `Error` is the
  `Except.error` side of `Except SolErr`; the distinct `throw new Error`
  sites of the three files are the constructors of `SolErr`.
- Byte buffers (`Uint8Array`, `Buffer`) are `List Nat`.
- External collaborators (slip10 derivation, the Ed25519 primitive, the
  RPC client, the transaction assembler living in
  `wallet-account-read-only-solana.js` which is not under `src/`) are
  modelled from the spec where a claim needs their behaviour, and are
  otherwise opaque parameters of an `Env` record.
-/

namespace WdkSolana

/-- One slash-separated segment of a derivation path: the literal `m`, or a
number together with its hardened tick (`44h` is `Seg.num 44 true`). -/
inductive Seg where
  | m : Seg
  | num : Nat → Bool → Seg
  deriving DecidableEq, Repr

/-- JavaScript `+segment` after the quote strip: the numeric value of a
segment, `none` for the non-numeric `m` (that unary plus yields `NaN`). -/
def Seg.stripNum : Seg → Option Nat
  | .m => none
  | .num n _ => some n

/-- The constant `BIP_44_SOL_DERIVATION_PATH_PREFIX` (`m/44h/501h`) shared by
both signer files, as its segment list. -/
def solPathBase : List Seg := [Seg.m, Seg.num 44 true, Seg.num 501 true]

/-- The distinct `throw new Error(...)` sites of the embedded files, plus
`typeError` for a JavaScript `TypeError` raised by a property access on
`undefined`. -/
inductive SolErr where
  /-- wallet account: "The wallet account has been disposed." -/
  | disposed : SolErr
  /-- wallet account: "The wallet must be connected to a provider ..." -/
  | notConnected : SolErr
  /-- wallet account: "Transaction fee payer (...) does not match wallet address (...)" -/
  | feePayerMismatch : SolErr
  /-- wallet account: "Exceeded maximum fee cost for transfer operation." -/
  | feeCeilingExceeded : SolErr
  /-- wallet account constructor: "A signer is required." -/
  | signerRequired : SolErr
  /-- wallet account constructor: "The signer is the root signer. Call derive method to create a child signer." -/
  | rootSignerAccount : SolErr
  /-- seed signer `_connect`: "Not allowed to interact with the root node." -/
  | rootSigner : SolErr
  /-- seed signer `_connect`: "The root node is not provided." -/
  | rootNotProvided : SolErr
  /-- seed signer constructor: "Provide either a seed or a root, not both." -/
  | seedAndRoot : SolErr
  /-- seed signer constructor: "Seed or root is required." -/
  | seedOrRootRequired : SolErr
  /-- seed signer constructor: "The seed phrase is invalid." -/
  | invalidSeed : SolErr
  /-- `assertFullHardenedPath` rejection (`InvalidPath` of the spec). -/
  | invalidPath : SolErr
  /-- ledger signer constructor: "Path is required." -/
  | pathRequired : SolErr
  /-- ledger signer `address` getter: "Ledger is not connected yet." -/
  | ledgerNotConnected : SolErr
  /-- a JavaScript `TypeError` from dereferencing `undefined`. -/
  | typeError : SolErr
  deriving DecidableEq, Repr

/-- Addresses and transaction hashes travel as strings in the source. -/
abbrev Addr := String

/-! ### External collaborators modelled from the spec

The curve primitives and the seed-tree derivation are external
collaborators (spec section 1 and 6); `assertFullHardenedPath` lives in
`signer-solana.js`, whose implementation is not under `src/` (only its
type declaration is).  Each is modelled here, faithful to the spec's
boundary contract, and is deterministic and executable. -/

/-- Modelled from the spec: a code for a path segment, so that the slip10
node derivation below is deterministic in the path (glossary: HD key tree
derives a key pair per path of index segments). -/
def segCode : Seg → Nat
  | .m => 0
  | .num n h => 1 + 2 * n + (if h then 1 else 0)

/-- Modelled from the spec: `root.derive(relPath, true).privateKey` of the
external slip10 collaborator — a private-key byte buffer computed
deterministically from the root node handle and the derivation path
(spec section 8: deriving twice from a fixed seed and path yields
identical key pairs). -/
def privBytes (root : Nat) (p : List Seg) : List Nat :=
  root :: p.map segCode

/-- Modelled from the spec: the public key of the external Ed25519
primitive for a private key, deterministic and distinct per key. -/
def pubOf (sk : List Nat) : List Nat := 0 :: sk

/-- Modelled from the spec: the base58 account address derived from a key
pair by `createKeyPairSignerFromPrivateKeyBytes` — an opaque string
determined by the key. -/
def addrOf (sk : List Nat) : Addr := toString (pubOf sk)

/-- Modelled from the spec: the unique signature the Ed25519 primitive
accepts for a public key and a message (spec section 8: the signature
algorithm is deterministic; verification succeeds exactly on the genuine
signature and fails once any byte of signature or message is altered). -/
def edSignature (pk msg : List Nat) : List Nat :=
  pk.length :: (pk ++ msg)

/-- Modelled from the spec: `signBytes` of the `@solana/keys` collaborator. -/
def edSign (sk msg : List Nat) : List Nat :=
  edSignature (pubOf sk) msg

/-- Modelled from the spec: `verifySignature` of the `@solana/keys`
collaborator — accepts exactly the genuine signature for this key and
message. -/
def edVerify (pk sig msg : List Nat) : Bool :=
  sig == edSignature pk msg

/-- `Buffer.from(message, 'utf8')`: the message bytes, modelled at
codepoint granularity (an injective encoding of the string, which is the
property the claims rely on). -/
def utf8Bytes (s : String) : List Nat :=
  s.data.map Char.toNat

/-- `Buffer.from(signatureBytes).toString('hex')`: the two hex digits of
each byte, kept as numbers.  On the byte range (values below 256) this is
exactly the hex expansion. -/
def hexEncode : List Nat → List Nat
  | [] => []
  | b :: t => b / 16 :: b % 16 :: hexEncode t

/-- `Buffer.from(signature, 'hex')`: recombines hex-digit pairs into
bytes; a trailing unpaired digit is dropped, as `Buffer.from` does. -/
def hexDecodePairs : List Nat → List Nat
  | a :: b :: t => (16 * a + b) :: hexDecodePairs t
  | _ => []

/-- Modelled from the spec: `assertFullHardenedPath` of
`signer-solana.js`, which is not under `src/` — construction fails unless
the relative path is non-empty and every segment is numeric and hardened
(spec sections 3 and 4.1). -/
def assertFullHardenedPath (p : List Seg) : Except SolErr Unit :=
  if p.isEmpty then .error .invalidPath
  else if p.all (fun s => match s with | .num _ true => true | _ => false)
  then .ok ()
  else .error .invalidPath

/-! ### The seed signer (`SeedSignerSolana`, `seed-signer-solana.js`)

State record: one field per `this._*` field of the class.  The class
declares getters `isActive`, `isRoot`, `index`, `path`, `keyPair` — and
none named `address`: the derived address lives only in the private
`_address` field, reachable through the async `getAddress`. -/

structure SeedSigner where
  /-- `_root`: handle of the shared slip10 root node (`undefined` after dispose). -/
  root : Option Nat
  /-- `_account`: the derived key-pair signer, modelled by its private-key bytes. -/
  account : Option (List Nat)
  /-- `_address`: the base58 address, set by `_connect`. -/
  addr : Option Addr
  /-- `_path`: the full derivation path (prefix ++ relative), or `undefined`. -/
  path : Option (List Seg)
  /-- `_isRoot` -/
  isRoot : Bool
  /-- `_isActive` -/
  isActive : Bool
  /-- `_rawPublicKey` -/
  rawPublicKey : Option (List Nat)
  /-- `_rawPrivateKey` -/
  rawPrivateKey : Option (List Nat)
  deriving DecidableEq, Repr

/-- The constructor `new SeedSignerSolana(null, merged, { root, path })`
as invoked by `derive` (the `seed` argument is `null` there, so the
mnemonic branch is skipped).  A falsy `opts.path` (here: the empty list)
leaves the instance a root. -/
def mkSeedSignerWithRoot (root : Option Nat) (relPath : List Seg) :
    Except SolErr SeedSigner :=
  if root.isNone then .error .seedOrRootRequired
  else
    let base : SeedSigner :=
      { root := root, account := none, addr := none, path := none,
        isRoot := true, isActive := false,
        rawPublicKey := none, rawPrivateKey := none }
    if relPath.isEmpty then .ok base
    else
      match assertFullHardenedPath relPath with
      | .error e => .error e
      | .ok _ =>
          .ok { base with path := some (solPathBase ++ relPath), isRoot := false }

/-- `derive(relPath, config)`: a sibling instance over the same root
reference (the config merge carries no claim-relevant state and is
omitted). -/
def SeedSigner.derive (s : SeedSigner) (relPath : List Seg) :
    Except SolErr SeedSigner :=
  mkSeedSignerWithRoot s.root relPath

/-- `index` getter: `+this._path.replace(/quote/g, '').split('/').at(3)` —
`undefined` without a path, else the numeric value of the segment at the
fixed position 3 (the BIP-44 account segment, right after `m/44h/501h`). -/
def SeedSigner.index (s : SeedSigner) : Option Nat :=
  match s.path with
  | none => none
  | some p => (p[3]?).bind Seg.stripNum

/-- `_connect`: splits the path on the prefix constant, refuses the root,
derives the leaf key pair from the shared root node and caches it.  With
`_path` `undefined` (a root instance, or after dispose) the very first
expression `this._path.split(...)` raises a JavaScript `TypeError` —
before the explicit root check can fire.  The final
`sodium_memzero(privateKey)` zeroes the local buffer after the raw copy
was taken, so it has no effect on the resulting state. -/
def SeedSigner.connect (s : SeedSigner) : Except SolErr SeedSigner :=
  match s.path with
  | none => .error .typeError
  | some p =>
    let rel : Option (List Seg) :=
      if solPathBase.isPrefixOf p then some (p.drop solPathBase.length) else none
    match rel with
    | none => .error .rootSigner
    | some [] => .error .rootSigner
    | some relSegs =>
      match s.root with
      | none => .error .rootNotProvided
      | some r =>
        let priv := privBytes r (Seg.m :: relSegs)
        .ok { s with
                account := some priv,
                addr := some (addrOf priv),
                isActive := true,
                rawPublicKey := some (pubOf priv),
                rawPrivateKey := some priv }

/-- The `if (!this._account) await this._connect()` preamble shared by
`getAddress`, `sign`, `verify` and `signTransaction`. -/
def SeedSigner.ensureConnected (s : SeedSigner) : Except SolErr SeedSigner :=
  match s.account with
  | some _ => .ok s
  | none => s.connect

/-- `sign(message)`: lazy connect, then the hex string of the Ed25519
signature over the utf8 bytes of the message, using the account's private
key.  The dead `none` branch is the `TypeError` JavaScript would raise on
`undefined.keyPair`. -/
def SeedSigner.sign (s : SeedSigner) (message : String) :
    Except SolErr (SeedSigner × List Nat) :=
  match s.ensureConnected with
  | .error e => .error e
  | .ok s1 =>
    match s1.account with
    | some sk => .ok (s1, hexEncode (edSign sk (utf8Bytes message)))
    | none => .error .typeError

/-- `verify(message, signature)`: lazy connect, hex-decode the signature,
check it against the account's public key and the utf8 message bytes. -/
def SeedSigner.verify (s : SeedSigner) (message : String) (signature : List Nat) :
    Except SolErr (SeedSigner × Bool) :=
  match s.ensureConnected with
  | .error e => .error e
  | .ok s1 =>
    match s1.account with
    | some sk => .ok (s1, edVerify (pubOf sk) (hexDecodePairs signature) (utf8Bytes message))
    | none => .error .typeError

/-- The decode / decompile / set-fee-payer-signer / sign / re-encode
pipeline of `signTransaction` is external `@solana/transactions` library
code; the claims only concern whether the call succeeds or on which error
it fails, so the successful wire result is modelled as the signature over
the wire bytes followed by those bytes. -/
def signedWire (sk : List Nat) (unsignedTx : List Nat) : List Nat :=
  edSign sk unsignedTx ++ unsignedTx

/-- `signTransaction(unsignedTx)`: lazy connect, then the signed wire
transaction. -/
def SeedSigner.signTransaction (s : SeedSigner) (unsignedTx : List Nat) :
    Except SolErr (SeedSigner × List Nat) :=
  match s.ensureConnected with
  | .error e => .error e
  | .ok s1 =>
    match s1.account with
    | some sk => .ok (s1, signedWire sk unsignedTx)
    | none => .error .typeError

/-- `dispose()`: `sodium_memzero(this._rawPrivateKey)` zeroes the raw
private-key buffer in place (the reference itself is kept), and the
root, account, address and path references are cleared. -/
def SeedSigner.dispose (s : SeedSigner) : SeedSigner :=
  { s with
      rawPrivateKey := s.rawPrivateKey.map (List.map fun _ => 0),
      root := none, account := none, addr := none, path := none,
      isActive := false }

/-- Reading the plain `address` property of a `SeedSignerSolana`
instance.  The class declares no member named `address` (the `.ts`
variant of the signer has such a getter; the `.js` one shipped under
`src/` does not), so in JavaScript the property read `signer.address`
evaluates to `undefined` for every instance — connected, fresh or
disposed alike. -/
def SeedSigner.addressRead (_ : SeedSigner) : Except SolErr (Option Addr) :=
  .ok none

/-! ### The hardware signer (`LedgerSignerSol`, `ledger-signer-solana.js`) -/

structure LedgerSigner where
  /-- `_account`: the device-scoped signer object, present once connected. -/
  account : Option Nat
  /-- `_address` -/
  addr : Option Addr
  /-- `_path`: the full derivation path (always set by the constructor). -/
  path : Option (List Seg)
  /-- `_isActive` -/
  isActive : Bool
  /-- `_dmk`: the device-management handle (shared when supplied by the caller). -/
  dmk : Nat
  deriving DecidableEq, Repr

/-- The constructor `new LedgerSignerSol(path, config, opts)`: requires a
truthy path (here: a non-empty segment list), prepends the
`m/44h/501h` prefix to it, and uses the supplied device-management
handle or builds a fresh one (`freshDmk` stands for the handle the
`DeviceManagementKitBuilder` would create). -/
def mkLedgerSigner (path : List Seg) (dmkOpt : Option Nat) (freshDmk : Nat) :
    Except SolErr LedgerSigner :=
  if path.isEmpty then .error .pathRequired
  else
    .ok { account := none, addr := none,
          path := some (solPathBase ++ path),
          isActive := false,
          dmk := dmkOpt.getD freshDmk }

/-- `index` getter of the ledger signer:
`+this._path.replace(/quote/g, '').split('/').pop()` — the numeric value
of the path's last segment, whichever position that happens to be. -/
def LedgerSigner.index (l : LedgerSigner) : Option Nat :=
  match l.path with
  | none => none
  | some p => p.getLast?.bind Seg.stripNum

/-- `derive(relPath, cfg)`: builds the child path as
`${this._path}/${relPath}` — the parent's full, already-prefixed path
followed by the relative path — and hands it to the constructor together
with the parent's device-management handle (`mergedOpts.dmk = this._dmk`). -/
def LedgerSigner.derive (l : LedgerSigner) (relPath : List Seg) (freshDmk : Nat) :
    Except SolErr LedgerSigner :=
  mkLedgerSigner (l.path.getD [] ++ relPath) (some l.dmk) freshDmk

/-- Reading the `address` getter of a `LedgerSignerSol` instance: throws
"Ledger is not connected yet." while `_account` is unset (before the
first connect, and again after `dispose` clears it), else yields
`_address`. -/
def LedgerSigner.addressRead (l : LedgerSigner) : Except SolErr (Option Addr) :=
  match l.account with
  | none => .error .ledgerNotConnected
  | some _ => .ok l.addr

/-! ### The wallet account (`WalletAccountSolana`, `wallet-account-solana.js`)

The account owns a signer and talks to the RPC collaborator.  For the
account-level claims only two aspects of the signer matter: what the
plain property read `this._signer.address` yields (see
`SeedSigner.addressRead` / `LedgerSigner.addressRead`), and `isRoot` in
the constructor.  The collaborators whose source is not under `src/`
(`wallet-account-read-only-solana.js`: `_buildSPLTransferTransactionMessage`,
`_buildNativeTransferTransactionMessage`, `_getTransactionFee`; the RPC
client) are opaque deterministic parameters collected in `Env`. -/

/-- `transactionMessage.feePayer` as the source reads it: either a plain
string or an object carrying an `address` field
(`typeof feePayer === 'string' ? feePayer : feePayer.address`). -/
inductive FeePayerField where
  | str : Addr → FeePayerField
  | obj : Addr → FeePayerField
  deriving DecidableEq, Repr

/-- The fee-payer address the source extracts from the field. -/
def extractFeePayerAddr : FeePayerField → Addr
  | .str s => s
  | .obj a => a

/-- A structured transaction message: the presence of the
`instructions` array (contents opaque), the optional blockhash-based
lifetime constraint, and the optional fee payer. -/
structure Msg where
  instructions : Option (List Nat)
  lifetimeConstraint : Option Nat
  feePayer : Option FeePayerField
  deriving DecidableEq, Repr

/-- `setTransactionMessageLifetimeUsingBlockhash(latestBlockhash, m)`. -/
def setLifetimeUsingBlockhash (bh : Nat) (m : Msg) : Msg :=
  { m with lifetimeConstraint := some bh }

/-- `setTransactionMessageFeePayer(address, m)`. -/
def setFeePayer (a : Addr) (m : Msg) : Msg :=
  { m with feePayer := some (.str a) }

/-- The `SolanaTransaction` union: a simplified `{ to, value }` native
transfer descriptor, or a structured message. -/
inductive SolanaTx where
  | native : Addr → Nat → SolanaTx
  | msg : Msg → SolanaTx

/-- Modelled from the spec: the collaborators the account consumes whose
source is not under `src/`, as opaque deterministic parameters —
`getLatestBlockhash` (spec section 6), the token- and native-transfer
assemblers and the deterministic fee estimator of
`wallet-account-read-only-solana.js` (spec section 4.5), and the
transaction hash the RPC broadcast returns. -/
structure Env where
  latestBlockhash : Nat
  splMsg : Addr → Addr → Nat → Msg
  nativeMsg : Addr → Nat → Msg
  feeOf : Msg → Nat
  sendResult : String

/-- Observable side effects of one account operation: how many times the
latest blockhash was fetched from the RPC collaborator, how many times
the signer's signing operation was invoked, how many times signed bytes
were submitted to the RPC collaborator, and the message that was handed
to `compileTransaction` (if any). -/
structure Trace where
  blockhashFetches : Nat
  signCalls : Nat
  submitCalls : Nat
  compiled : Option Msg
  deriving DecidableEq, Repr

/-- The empty trace: the operation returned before any collaborator side
effect. -/
def noTrace : Trace := ⟨0, 0, 0, none⟩

/-- The account state the embedded operations read: the result of the
`this._signer.address` property read, whether an RPC collaborator is
configured (`this._rpc`), and the configured `transferMaxFee` ceiling. -/
structure Account where
  signerAddressRead : Except SolErr (Option Addr)
  hasRpc : Bool
  transferMaxFee : Option Nat

/-- The wallet-account constructor's own checks: a signer must be
supplied, and it must not be the root signer. -/
def mkAccount (signerPresent : Bool) (signerIsRoot : Bool) : Except SolErr Unit :=
  if !signerPresent then .error .signerRequired
  else if signerIsRoot then .error .rootSignerAccount
  else .ok ()

/-- The lifetime step of `sendTransaction`: if the message carries no
`lifetimeConstraint`, fetch the latest blockhash (one RPC fetch) and
attach it; otherwise leave the message untouched and fetch nothing. -/
def bindLifetime (env : Env) (m : Msg) : Msg × Nat :=
  if m.lifetimeConstraint.isNone
  then (setLifetimeUsingBlockhash env.latestBlockhash m, 1)
  else (m, 0)

/-- The tail of `sendTransaction` once the message is final: compute the
fee, compile and wire-encode the message, have the signer sign it (one
signing call) and submit the signed bytes to the RPC collaborator (one
submission), returning `{ hash, fee }`. -/
def finishSend (env : Env) (m : Msg) (bf : Nat) :
    Except SolErr (String × Nat) × Trace :=
  (.ok (env.sendResult, env.feeOf m), ⟨bf, 1, 1, some m⟩)

/-- The fee-payer step of `sendTransaction` after the lifetime step
resolved the message to `tm1` at the cost of `bf` blockhash fetches: a
declared fee payer must equal the signer address or the operation fails
hard; then the fee payer is set to the signer address and the message is
compiled, signed and submitted. -/
def checkFeePayerAndSend (env : Env) (myAddr : Addr) (tm1 : Msg) (bf : Nat) :
    Except SolErr (String × Nat) × Trace :=
  match tm1.feePayer with
  | some fp =>
    if extractFeePayerAddr fp ≠ myAddr
    then (.error .feePayerMismatch, ⟨bf, 0, 0, none⟩)
    else finishSend env (setFeePayer myAddr tm1) bf
  | none => finishSend env (setFeePayer myAddr tm1) bf

/-- `sendTransaction(tx)`:
1. `if (!this._signer?.address)` — fail with the disposed error when the
   property read yields `undefined` (and propagate whatever the property
   getter itself throws);
2. fail with the not-connected error when no RPC collaborator is set;
3. turn a `{ to, value }` descriptor into a native-transfer message;
4. for a message with an `instructions` array: attach a lifetime if
   missing (fetching the latest blockhash only then), verify a declared
   fee payer against the signer address (hard error on mismatch), then
   set the fee payer to the signer address;
5. compute the fee, compile, sign and submit. -/
def sendTransaction (env : Env) (acc : Account) (tx : SolanaTx) :
    Except SolErr (String × Nat) × Trace :=
  match acc.signerAddressRead with
  | .error e => (.error e, noTrace)
  | .ok none => (.error .disposed, noTrace)
  | .ok (some myAddr) =>
    if acc.hasRpc = false then (.error .notConnected, noTrace)
    else
      let tm0 : Msg :=
        match tx with
        | .native toAddr v => env.nativeMsg toAddr v
        | .msg m => m
      match tm0.instructions with
      | some _ =>
        checkFeePayerAndSend env myAddr (bindLifetime env tm0).1 (bindLifetime env tm0).2
      | none => finishSend env tm0 0

/-- The tail of `transfer` shared by both ceiling configurations:
`const { hash } = await this.sendTransaction(...)`, returning the hash
together with the fee `transfer` itself computed. -/
def transferSend (env : Env) (acc : Account) (tm : Msg) (fee : Nat) :
    Except SolErr (String × Nat) × Trace :=
  match sendTransaction env acc (.msg tm) with
  | (.ok r, t) => (.ok (r.1, fee), t)
  | (.error e, t) => (.error e, t)

/-- `transfer(options)`: the same two guards, then build the SPL
transfer message, compute its fee, and — when a `transferMaxFee` ceiling
is configured and the fee meets or exceeds it — fail with the
fee-ceiling error before delegating to `sendTransaction`. -/
def transfer (env : Env) (acc : Account) (token recipient : Addr) (amount : Nat) :
    Except SolErr (String × Nat) × Trace :=
  match acc.signerAddressRead with
  | .error e => (.error e, noTrace)
  | .ok none => (.error .disposed, noTrace)
  | .ok (some _) =>
    if acc.hasRpc = false then (.error .notConnected, noTrace)
    else
      let tm := env.splMsg token recipient amount
      let fee := env.feeOf tm
      match acc.transferMaxFee with
      | some ceiling =>
        if fee ≥ ceiling then (.error .feeCeilingExceeded, noTrace)
        else transferSend env acc tm fee
      | none => transferSend env acc tm fee

/-! ### Helper lemmas -/

/-- The lifetime step never touches the fee payer. -/
theorem bindLifetime_feePayer (env : Env) (m : Msg) :
    ((bindLifetime env m).1).feePayer = m.feePayer := by
  unfold bindLifetime setLifetimeUsingBlockhash
  split <;> rfl

/-- The lifetime step with a lifetime already present is the identity and
fetches nothing. -/
theorem bindLifetime_of_isSome (env : Env) (m : Msg) (lc : Nat)
    (h : m.lifetimeConstraint = some lc) :
    bindLifetime env m = (m, 0) := by
  unfold bindLifetime
  rw [h]
  rfl

/-- The lifetime step with no lifetime attaches the freshly fetched
blockhash, at the cost of one fetch. -/
theorem bindLifetime_of_isNone (env : Env) (m : Msg)
    (h : m.lifetimeConstraint = none) :
    bindLifetime env m = (setLifetimeUsingBlockhash env.latestBlockhash m, 1) := by
  unfold bindLifetime
  rw [h]
  rfl

/-- The fee-payer step reports exactly the blockhash fetches of the
lifetime step that preceded it. -/
theorem checkFeePayerAndSend_fetches (env : Env) (a : Addr) (tm1 : Msg) (bf : Nat) :
    (checkFeePayerAndSend env a tm1 bf).2.blockhashFetches = bf := by
  unfold checkFeePayerAndSend
  rcases htm : tm1.feePayer with _ | fp
  · rfl
  · dsimp only
    split <;> rfl

/-- Whatever message the fee-payer step hands to compilation is the
lifetime-resolved message with the fee payer set to the signer address. -/
theorem checkFeePayerAndSend_compiled (env : Env) (a : Addr) (tm1 : Msg) (bf : Nat)
    (mc : Msg) (h : (checkFeePayerAndSend env a tm1 bf).2.compiled = some mc) :
    mc = setFeePayer a tm1 := by
  unfold checkFeePayerAndSend at h
  rcases htm : tm1.feePayer with _ | fp <;> rw [htm] at h
  · cases h
    rfl
  · dsimp only at h
    split at h
    · cases h
    · cases h
      rfl

/-- On an account whose signer address reads as `a` and whose RPC
collaborator is configured, `sendTransaction` over a structured message
is the lifetime step followed by the fee-payer step. -/
theorem sendTransaction_structured (env : Env) (acc : Account) (a : Addr)
    (m : Msg) (instrs : List Nat)
    (haddr : acc.signerAddressRead = .ok (some a))
    (hrpc : acc.hasRpc = true)
    (hins : m.instructions = some instrs) :
    sendTransaction env acc (.msg m)
      = checkFeePayerAndSend env a (bindLifetime env m).1 (bindLifetime env m).2 := by
  unfold sendTransaction
  rw [haddr, hrpc]
  simp only [Bool.true_eq_false, if_false]
  rw [hins]

/-! ### C1 — the transfer fee-ceiling guard -/

/-- C1: for every wallet account configured with a `transferMaxFee`
ceiling (and able to reach the fee computation: the signer address is
readable and an RPC collaborator is configured), if the estimated fee of
a token transfer meets or exceeds the ceiling then `transfer(options)`
fails with the fee-ceiling error, with an empty trace — the signer's
signing operation is never invoked and nothing is submitted to the RPC
collaborator. -/
theorem transfer_fee_ceiling_short_circuits (env : Env) (acc : Account)
    (a token recipient : Addr) (amount ceiling : Nat)
    (haddr : acc.signerAddressRead = .ok (some a))
    (hrpc : acc.hasRpc = true)
    (hceil : acc.transferMaxFee = some ceiling)
    (hfee : env.feeOf (env.splMsg token recipient amount) ≥ ceiling) :
    transfer env acc token recipient amount = (.error .feeCeilingExceeded, noTrace)
    ∧ (transfer env acc token recipient amount).2.signCalls = 0
    ∧ (transfer env acc token recipient amount).2.submitCalls = 0 := by
  have h : transfer env acc token recipient amount
      = (.error .feeCeilingExceeded, noTrace) := by
    unfold transfer
    rw [haddr, hrpc, hceil]
    simp [hfee]
  exact ⟨h, by rw [h]; rfl, by rw [h]; rfl⟩

/-- Witness for C1 at a concrete account: fee 9 against ceiling 5. -/
theorem transfer_fee_ceiling_short_circuits_witness :
    transfer ⟨3, fun _ _ _ => ⟨some [], none, none⟩, fun _ _ => ⟨some [], none, none⟩, fun _ => 9, "h"⟩
        ⟨.ok (some "a"), true, some 5⟩ "t" "r" 1
      = (.error .feeCeilingExceeded, noTrace) :=
  (transfer_fee_ceiling_short_circuits
    ⟨3, fun _ _ _ => ⟨some [], none, none⟩, fun _ _ => ⟨some [], none, none⟩, fun _ => 9, "h"⟩
    ⟨.ok (some "a"), true, some 5⟩ "a" "t" "r" 1 5 rfl rfl rfl (by decide)).1

/-! ### C2 — fee-payer validation in `sendTransaction` -/

/-- C2: for a structured message (one carrying an `instructions` array)
processed by `sendTransaction` on an account whose signer address is
readable and whose RPC collaborator is configured: a declared fee payer
whose address differs from the signing account's own address makes the
operation fail hard with the fee-payer-mismatch error (nothing is signed
or submitted); with no declared fee payer, the message handed to
compilation carries the account's own address as fee payer. -/
theorem sendTransaction_fee_payer_checked (env : Env) (acc : Account) (a : Addr)
    (m : Msg) (instrs : List Nat)
    (haddr : acc.signerAddressRead = .ok (some a))
    (hrpc : acc.hasRpc = true)
    (hins : m.instructions = some instrs) :
    (∀ fp, m.feePayer = some fp → extractFeePayerAddr fp ≠ a →
      sendTransaction env acc (.msg m)
        = (.error .feePayerMismatch, ⟨(bindLifetime env m).2, 0, 0, none⟩))
    ∧ (m.feePayer = none →
      sendTransaction env acc (.msg m)
        = finishSend env (setFeePayer a (bindLifetime env m).1) (bindLifetime env m).2
      ∧ ∀ mc, (sendTransaction env acc (.msg m)).2.compiled = some mc →
          mc.feePayer = some (FeePayerField.str a)) := by
  have hsend := sendTransaction_structured env acc a m instrs haddr hrpc hins
  constructor
  · intro fp hfp hne
    rw [hsend]
    unfold checkFeePayerAndSend
    have hfp1 : ((bindLifetime env m).1).feePayer = some fp := by
      rw [bindLifetime_feePayer, hfp]
    rw [hfp1]
    simp [hne]
  · intro hfp
    have hfp1 : ((bindLifetime env m).1).feePayer = none := by
      rw [bindLifetime_feePayer, hfp]
    have h : sendTransaction env acc (.msg m)
        = finishSend env (setFeePayer a (bindLifetime env m).1) (bindLifetime env m).2 := by
      rw [hsend]
      unfold checkFeePayerAndSend
      rw [hfp1]
    refine ⟨h, ?_⟩
    intro mc hmc
    rw [hsend] at hmc
    have := checkFeePayerAndSend_compiled env a (bindLifetime env m).1 (bindLifetime env m).2 mc hmc
    rw [this]
    rfl

/-- Witness for C2: a concrete mismatching declared payer, and a concrete
payerless message that gets the account's address. -/
theorem sendTransaction_fee_payer_checked_witness :
    (sendTransaction ⟨3, fun _ _ _ => ⟨some [], none, none⟩, fun _ _ => ⟨some [], none, none⟩, fun _ => 2, "h"⟩
        ⟨.ok (some "a"), true, none⟩ (.msg ⟨some [], some 1, some (.str "b")⟩)
      = (.error .feePayerMismatch, ⟨0, 0, 0, none⟩))
    ∧ ∀ mc, (sendTransaction ⟨3, fun _ _ _ => ⟨some [], none, none⟩, fun _ _ => ⟨some [], none, none⟩, fun _ => 2, "h"⟩
        ⟨.ok (some "a"), true, none⟩ (.msg ⟨some [], some 1, none⟩)).2.compiled = some mc →
          mc.feePayer = some (FeePayerField.str "a") := by
  constructor
  · exact (sendTransaction_fee_payer_checked _ _ "a" ⟨some [], some 1, some (.str "b")⟩ []
      rfl rfl rfl).1 (.str "b") rfl (by decide)
  · exact ((sendTransaction_fee_payer_checked _ _ "a" ⟨some [], some 1, none⟩ []
      rfl rfl rfl).2 rfl).2

/-! ### C3 — lifetime binding in `sendTransaction` -/

/-- C3: for a structured message already carrying a lifetime constraint,
`sendTransaction` fetches no blockhash and hands the message to
compilation with that lifetime untouched; only when the lifetime is
missing does it fetch the latest blockhash (exactly once) and attach it. -/
theorem sendTransaction_lifetime_preserved (env : Env) (acc : Account) (a : Addr)
    (m : Msg) (instrs : List Nat)
    (haddr : acc.signerAddressRead = .ok (some a))
    (hrpc : acc.hasRpc = true)
    (hins : m.instructions = some instrs) :
    (∀ lc, m.lifetimeConstraint = some lc →
      (sendTransaction env acc (.msg m)).2.blockhashFetches = 0
      ∧ ∀ mc, (sendTransaction env acc (.msg m)).2.compiled = some mc →
          mc.lifetimeConstraint = some lc)
    ∧ (m.lifetimeConstraint = none →
      (sendTransaction env acc (.msg m)).2.blockhashFetches = 1
      ∧ ∀ mc, (sendTransaction env acc (.msg m)).2.compiled = some mc →
          mc.lifetimeConstraint = some env.latestBlockhash) := by
  have hsend := sendTransaction_structured env acc a m instrs haddr hrpc hins
  constructor
  · intro lc hlc
    have hbl := bindLifetime_of_isSome env m lc hlc
    constructor
    · rw [hsend, checkFeePayerAndSend_fetches, hbl]
    · intro mc hmc
      rw [hsend] at hmc
      have h2 := checkFeePayerAndSend_compiled env a (bindLifetime env m).1
        (bindLifetime env m).2 mc hmc
      rw [h2, hbl]
      exact hlc
  · intro hlc
    have hbl := bindLifetime_of_isNone env m hlc
    constructor
    · rw [hsend, checkFeePayerAndSend_fetches, hbl]
    · intro mc hmc
      rw [hsend] at hmc
      have h2 := checkFeePayerAndSend_compiled env a (bindLifetime env m).1
        (bindLifetime env m).2 mc hmc
      rw [h2, hbl]
      rfl

/-- Witness for C3: a message with lifetime 7 keeps it with zero
fetches; a message without one gets the fetched blockhash 3. -/
theorem sendTransaction_lifetime_preserved_witness :
    ((sendTransaction ⟨3, fun _ _ _ => ⟨some [], none, none⟩, fun _ _ => ⟨some [], none, none⟩, fun _ => 2, "h"⟩
        ⟨.ok (some "a"), true, none⟩ (.msg ⟨some [], some 7, none⟩)).2.blockhashFetches = 0)
    ∧ ((sendTransaction ⟨3, fun _ _ _ => ⟨some [], none, none⟩, fun _ _ => ⟨some [], none, none⟩, fun _ => 2, "h"⟩
        ⟨.ok (some "a"), true, none⟩ (.msg ⟨some [], none, none⟩)).2.blockhashFetches = 1) := by
  constructor
  · exact ((sendTransaction_lifetime_preserved _ _ "a" ⟨some [], some 7, none⟩ []
      rfl rfl rfl).1 7 rfl).1
  · exact ((sendTransaction_lifetime_preserved _ _ "a" ⟨some [], none, none⟩ []
      rfl rfl rfl).2 rfl).1

/-! ### C4 — the disposed guard of `sendTransaction` (code bug)

`sendTransaction` (and `transfer`) guard with `if (!this._signer?.address)`
and report "The wallet account has been disposed.".  But the seed signer
shipped under `src/` exposes no `address` property at all, so the read is
`undefined` on every seed signer — live and connected included — and the
account reports the disposed error although nothing was disposed.  The
ledger signer's `address` getter, in turn, throws its own
"Ledger is not connected yet." once `dispose` cleared `_account`, so a
disposed ledger-backed account never reports the disposed error either. -/

/-- The private key of the live signer below (root 0, path `0h/0h`). -/
def c4priv : List Nat := privBytes 0 [Seg.m, Seg.num 0 true, Seg.num 0 true]

/-- A freshly derived, not yet connected seed signer at `0h/0h`. -/
def c4fresh : SeedSigner :=
  { root := some 0, account := none, addr := none,
    path := some (solPathBase ++ [Seg.num 0 true, Seg.num 0 true]),
    isRoot := false, isActive := false,
    rawPublicKey := none, rawPrivateKey := none }

/-- The same signer after `_connect`: live, active, key pair cached. -/
def c4live : SeedSigner :=
  { root := some 0, account := some c4priv, addr := some (addrOf c4priv),
    path := some (solPathBase ++ [Seg.num 0 true, Seg.num 0 true]),
    isRoot := false, isActive := true,
    rawPublicKey := some (pubOf c4priv), rawPrivateKey := some c4priv }

/-- A concrete environment for the C4 run. -/
def c4env : Env :=
  ⟨3, fun _ _ _ => ⟨some [], none, none⟩, fun _ _ => ⟨some [], none, none⟩,
   fun _ => 2, "h"⟩

/-- A structured message with lifetime and no declared fee payer. -/
def c4msg : Msg := ⟨some [], some 1, none⟩

/-- A ledger signer that was connected and then disposed: `_account` is
cleared again. -/
def c4ledgerDisposed : LedgerSigner :=
  { account := none, addr := none,
    path := some (solPathBase ++ [Seg.num 0 true]),
    isActive := false, dmk := 0 }

/-- C4 (code bug): the claim says `sendTransaction` fails with the
disposed error exactly when the signer has been disposed.  On the code,
a live, fully connected seed signer (reachable via `_connect`, with an
RPC collaborator configured) still makes `sendTransaction` fail with the
disposed error, because the seed signer class declares no `address`
property and the guard reads `undefined`; and a ledger-backed account
whose signer *was* disposed reports the ledger's not-connected error, not
the disposed one. -/
theorem sendTransaction_disposed_guard_misfires :
    c4fresh.connect = .ok c4live
    ∧ c4live.isActive = true
    ∧ c4live.account.isSome = true
    ∧ sendTransaction c4env
        ⟨c4live.addressRead, true, none⟩ (.msg c4msg)
      = (.error .disposed, noTrace)
    ∧ (sendTransaction c4env
        ⟨c4ledgerDisposed.addressRead, true, none⟩ (.msg c4msg)).1
      = .error .ledgerNotConnected
    ∧ SolErr.ledgerNotConnected ≠ SolErr.disposed := by
  refine ⟨rfl, rfl, rfl, rfl, rfl, by decide⟩

/-! ### C5 — the two `index` getters (corrected)

The seed signer's getter reads the segment at the fixed position 3 (the
BIP-44 account position); the ledger signer's getter reads the path's
last segment (`.pop()`).  On a relative path with more than one segment
they disagree. -/

/-- A seed-signer state carrying only the path (all the getter reads). -/
def c5seedAt (p : List Seg) : SeedSigner :=
  { root := none, account := none, addr := none, path := some p,
    isRoot := false, isActive := false,
    rawPublicKey := none, rawPrivateKey := none }

/-- A ledger-signer state carrying only the path. -/
def c5ledgerAt (p : List Seg) : LedgerSigner :=
  { account := none, addr := none, path := some p, isActive := false, dmk := 0 }

/-- C5 counterexample: on the full path `m/44h/501h/0h/1h` the seed
variant answers 0 (the account segment) while the ledger variant answers
1 (the final change segment) — the hardware variant does not read the
fixed account position, and the two variants do not agree on this path. -/
theorem index_getters_disagree :
    SeedSigner.index (c5seedAt (solPathBase ++ [Seg.num 0 true, Seg.num 1 true])) = some 0
    ∧ LedgerSigner.index (c5ledgerAt (solPathBase ++ [Seg.num 0 true, Seg.num 1 true])) = some 1
    ∧ LedgerSigner.index (c5ledgerAt (solPathBase ++ [Seg.num 0 true, Seg.num 1 true]))
      ≠ SeedSigner.index (c5seedAt (solPathBase ++ [Seg.num 0 true, Seg.num 1 true])) := by
  decide

/-- C5 amended: on a full path `m/44h/501h/<x>/<rel...>`, the seed
variant's `index` returns the numeric value of the first relative
segment `x` (the fixed BIP-44 account position), while the hardware
variant's `index` returns the numeric value of the path's final segment;
the two agree whenever the relative path has exactly one segment. -/
theorem index_getters_structural (x : Seg) (rel : List Seg) :
    SeedSigner.index (c5seedAt (solPathBase ++ x :: rel)) = x.stripNum
    ∧ LedgerSigner.index (c5ledgerAt (solPathBase ++ x :: rel))
      = ((x :: rel).getLast?).bind Seg.stripNum
    ∧ SeedSigner.index (c5seedAt (solPathBase ++ [x]))
      = LedgerSigner.index (c5ledgerAt (solPathBase ++ [x])) := by
  have hlen : solPathBase.length = 3 := rfl
  refine ⟨?_, ?_, ?_⟩
  · show ((solPathBase ++ x :: rel)[3]?).bind Seg.stripNum = x.stripNum
    rw [List.getElem?_append_right (by decide), hlen]
    simp
  · show ((solPathBase ++ x :: rel).getLast?).bind Seg.stripNum
        = ((x :: rel).getLast?).bind Seg.stripNum
    rw [List.getLast?_append_cons]
  · show ((solPathBase ++ [x])[3]?).bind Seg.stripNum
        = ((solPathBase ++ [x]).getLast?).bind Seg.stripNum
    rw [List.getElem?_append_right (by decide), hlen, List.getLast?_append_cons]
    simp

/-! ### C6 — signing on a root seed signer (code bug)

A root instance has `_path = undefined`.  `signTransaction` (like `sign`
and `getAddress`) runs `_connect`, whose first expression
`this._path.split(...)` dereferences `undefined` and raises a JavaScript
`TypeError` — so the explicit root check
("Not allowed to interact with the root node.") a few lines below is
unreachable for a true root instance, and the failure surfaces as a
`TypeError`, not as the root-signer error. -/

/-- A root seed signer over root node 7, exactly as the constructor
leaves it when no leaf path is supplied. -/
def c6root : SeedSigner :=
  { root := some 7, account := none, addr := none, path := none,
    isRoot := true, isActive := false,
    rawPublicKey := none, rawPrivateKey := none }

/-- The child derived from it at relative path `0h`. -/
def c6child : SeedSigner :=
  { root := some 7, account := none, addr := none,
    path := some (solPathBase ++ [Seg.num 0 true]),
    isRoot := false, isActive := false,
    rawPublicKey := none, rawPrivateKey := none }

/-- Whether a signer call succeeded. -/
def isOkResult (e : Except SolErr (SeedSigner × List Nat)) : Bool :=
  match e with
  | .ok _ => true
  | .error _ => false

/-- C6 (code bug): on the code, `signTransaction` on a root seed signer
fails with a `TypeError` (the undefined-path dereference in `_connect`),
not with the root-signer error the claim names; the derived child does
succeed, and the wallet-account constructor does reject a root signer
while accepting a non-root one. -/
theorem root_signer_sign_transaction_type_error :
    mkSeedSignerWithRoot (some 7) [] = .ok c6root
    ∧ c6root.isRoot = true
    ∧ c6root.signTransaction [1, 2] = .error .typeError
    ∧ SolErr.typeError ≠ SolErr.rootSigner
    ∧ mkSeedSignerWithRoot (some 7) [Seg.num 0 true] = .ok c6child
    ∧ isOkResult (c6child.signTransaction [1, 2]) = true
    ∧ mkAccount true true = .error .rootSignerAccount
    ∧ mkAccount true false = .ok () := by
  refine ⟨rfl, rfl, rfl, by decide, rfl, rfl, rfl, rfl⟩

/-! ### C7 — dispose zeroes the key, but post-dispose `sign` raises a
`TypeError` (code bug)

`dispose()` zeroes `_rawPrivateKey` in place and clears `_root`,
`_account`, `_address` and `_path`.  A subsequent `sign` sees
`_account === undefined` and re-enters `_connect`, whose
`this._path.split(...)` dereferences the cleared `_path` and raises a
JavaScript `TypeError` — not the disposed error the claim names. -/

/-- The private key of the live signer below (root 3, path `0h/0h`). -/
def c7priv : List Nat := privBytes 3 [Seg.m, Seg.num 0 true, Seg.num 0 true]

/-- A freshly derived, not yet connected seed signer (root 3, `0h/0h`). -/
def c7fresh : SeedSigner :=
  { root := some 3, account := none, addr := none,
    path := some (solPathBase ++ [Seg.num 0 true, Seg.num 0 true]),
    isRoot := false, isActive := false,
    rawPublicKey := none, rawPrivateKey := none }

/-- The same signer once `_connect` has cached the key material. -/
def c7live : SeedSigner :=
  { root := some 3, account := some c7priv, addr := some (addrOf c7priv),
    path := some (solPathBase ++ [Seg.num 0 true, Seg.num 0 true]),
    isRoot := false, isActive := true,
    rawPublicKey := some (pubOf c7priv), rawPrivateKey := some c7priv }

/-- C7 (code bug): after `dispose()` on an active seed signer the raw
private-key buffer is all zeroes and the root/account/address references
are cleared — but a subsequent `sign` fails with a `TypeError` from the
lazy reconnect over the cleared path, not with the disposed error the
claim names. -/
theorem dispose_zeroes_key_but_sign_type_errors :
    mkSeedSignerWithRoot (some 3) [Seg.num 0 true, Seg.num 0 true] = .ok c7fresh
    ∧ c7fresh.connect = .ok c7live
    ∧ c7live.isActive = true
    ∧ c7live.dispose.rawPrivateKey = some [0, 0, 0, 0]
    ∧ c7live.dispose.root = none
    ∧ c7live.dispose.account = none
    ∧ c7live.dispose.addr = none
    ∧ c7live.dispose.path = none
    ∧ c7live.dispose.isActive = false
    ∧ c7live.dispose.sign "x" = .error .typeError
    ∧ SolErr.typeError ≠ SolErr.disposed := by
  refine ⟨rfl, rfl, rfl, rfl, rfl, rfl, rfl, rfl, rfl, rfl, by decide⟩

/-! ### C8 — ledger `derive` duplicates the coin-type prefix (code bug)

`derive(relPath, cfg)` constructs
`new LedgerSignerSol(`${this._path}/${relPath}`, ...)`: it passes the
parent's full, already-prefixed path as the constructor's `path`
argument, and the constructor prepends `m/44h/501h` once more. -/

/-- The parent hardware signer `new LedgerSignerSol("0h")` with a fresh
device-management handle 5. -/
def c8parent : LedgerSigner :=
  { account := none, addr := none,
    path := some (solPathBase ++ [Seg.num 0 true]),
    isActive := false, dmk := 5 }

/-- What `derive` actually produces: the prefix occurs twice in the
child's path. -/
def c8child : LedgerSigner :=
  { account := none, addr := none,
    path := some (solPathBase ++ ((solPathBase ++ [Seg.num 0 true]) ++ [Seg.num 0 true])),
    isActive := false, dmk := 5 }

/-- C8 (code bug): deriving `0h` from the parent at `m/44h/501h/0h`
yields a child whose path is `m/44h/501h/m/44h/501h/0h/0h` — the
coin-type prefix is duplicated (the `m` segment occurs twice), and the
child path is not the parent path followed by the relative path as the
claim states; the device-management handle, at least, is shared. -/
theorem ledger_derive_duplicates_path_base :
    mkLedgerSigner [Seg.num 0 true] none 5 = .ok c8parent
    ∧ c8parent.derive [Seg.num 0 true] 9 = .ok c8child
    ∧ c8child.dmk = c8parent.dmk
    ∧ c8child.path ≠ some (c8parent.path.getD [] ++ [Seg.num 0 true])
    ∧ (c8child.path.getD []).count Seg.m = 2 := by
  refine ⟨rfl, rfl, rfl, by decide, by decide⟩

/-! ### C9 — sign/verify round trip of the seed signer

The signer composes: lazy `_connect` (key derivation), utf8 message
bytes, the Ed25519 primitive, and the hex transport of the signature.
The primitive itself is the spec-modelled boundary (see `edSignature`);
everything else below is the repository's own composition. -/

/-- Hex decoding inverts hex encoding. -/
theorem hex_roundtrip (l : List Nat) : hexDecodePairs (hexEncode l) = l := by
  induction l with
  | nil => rfl
  | cons b t ih =>
    simp only [hexEncode, hexDecodePairs, ih]
    congr 1
    omega

/-- Hex encoding doubles the length. -/
theorem hexEncode_length (l : List Nat) : (hexEncode l).length = 2 * l.length := by
  induction l with
  | nil => rfl
  | cons b t ih => simp [hexEncode, ih]; omega

/-- Altering any single digit of a hex-encoded buffer changes what it
decodes to: the decoded bytes no longer equal the original buffer. -/
theorem hexEncode_set_decode_ne (bytes : List Nat) :
    ∀ (i v : Nat), i < (hexEncode bytes).length →
      (hexEncode bytes)[i]? ≠ some v →
      hexDecodePairs ((hexEncode bytes).set i v) ≠ bytes := by
  induction bytes with
  | nil =>
    intro i v hi _
    simp [hexEncode] at hi
  | cons b t ih =>
    intro i v hi hne
    match i with
    | 0 =>
      have hv : v ≠ b / 16 := by
        intro h
        exact hne (by simp [hexEncode, h])
      simp only [hexEncode, List.set_cons_zero, hexDecodePairs, hex_roundtrip]
      intro hEq
      injection hEq with h1 _
      omega
    | 1 =>
      have hv : v ≠ b % 16 := by
        intro h
        exact hne (by simp [hexEncode, h])
      simp only [hexEncode, List.set_cons_succ, List.set_cons_zero,
        hexDecodePairs, hex_roundtrip]
      intro hEq
      injection hEq with h1 _
      omega
    | (n + 2) =>
      have hi2 : n < (hexEncode t).length := by
        have := hexEncode_length t
        simp [hexEncode, hexEncode_length] at hi
        omega
      have hne2 : (hexEncode t)[n]? ≠ some v := by
        intro h
        exact hne (by simp [hexEncode, h])
      have htail := ih n v hi2 hne2
      simp only [hexEncode, List.set_cons_succ, hexDecodePairs]
      intro hEq
      injection hEq with _ h2
      exact htail h2

/-- The utf8 message bytes determine the message string. -/
theorem utf8Bytes_injective {a b : String} (h : utf8Bytes a = utf8Bytes b) :
    a = b := by
  have hchar : Function.Injective Char.toNat := by
    intro c d hcd
    apply Char.eq_of_val_eq
    apply UInt32.eq_of_val_eq
    apply Fin.eq_of_val_eq
    exact hcd
  have hdata : a.data = b.data := List.map_injective_iff.mpr hchar h
  cases a
  cases b
  cases hdata
  rfl

/-- Two distinct messages have distinct genuine signatures under the same
public key. -/
theorem edSignature_msg_injective (pk : List Nat) {m1 m2 : List Nat}
    (h : edSignature pk m1 = edSignature pk m2) : m1 = m2 := by
  unfold edSignature at h
  injection h with _ h2
  exact List.append_cancel_left h2

/-- `_connect` of a signer freshly built over a root and a non-empty
relative path derives the leaf key material and caches it. -/
theorem connect_of_derived (r : Nat) (rel : List Seg) (s : SeedSigner)
    (hrel : rel ≠ [])
    (hpath : s.path = some (solPathBase ++ rel))
    (hroot : s.root = some r) :
    s.connect = .ok { s with
        account := some (privBytes r (Seg.m :: rel)),
        addr := some (addrOf (privBytes r (Seg.m :: rel))),
        isActive := true,
        rawPublicKey := some (pubOf (privBytes r (Seg.m :: rel))),
        rawPrivateKey := some (privBytes r (Seg.m :: rel)) } := by
  unfold SeedSigner.connect
  rw [hpath]
  have hpre : solPathBase.isPrefixOf (solPathBase ++ rel) = true := by
    rw [List.isPrefixOf_iff_prefix]
    exact List.prefix_append solPathBase rel
  have hdrop : (solPathBase ++ rel).drop solPathBase.length = rel :=
    List.drop_left solPathBase rel
  rcases rel with _ | ⟨x, rest⟩
  · exact absurd rfl hrel
  · simp only [hpre, if_true, hdrop]
    rw [hroot]

/-- Inversion of the constructor used by `derive`: the freshly built
signer's fields. -/
theorem mkSeedSignerWithRoot_ok (r : Nat) (rel : List Seg) (s : SeedSigner)
    (h : mkSeedSignerWithRoot (some r) rel = .ok s) :
    s.root = some r ∧ s.account = none
    ∧ (rel = [] ∧ s.path = none ∨ rel ≠ [] ∧ s.path = some (solPathBase ++ rel)) := by
  unfold mkSeedSignerWithRoot at h
  simp only [Option.isNone_some, Bool.false_eq_true, if_false] at h
  by_cases hrel : rel.isEmpty
  · rw [if_pos hrel] at h
    cases h
    exact ⟨rfl, rfl, Or.inl ⟨List.isEmpty_iff.mp hrel, rfl⟩⟩
  · rw [if_neg hrel] at h
    rcases ha : assertFullHardenedPath rel with e | u
    · rw [ha] at h
      cases h
    · rw [ha] at h
      cases h
      refine ⟨rfl, rfl, Or.inr ⟨?_, rfl⟩⟩
      intro hnil
      rw [hnil] at hrel
      exact hrel rfl

/-- C9: for every message and every seed signer freshly derived from a
root (the signer `derive` constructs over the shared root node),
`verify(message, sign(message))` returns true; and `verify` returns
false whenever any digit of the transported signature is altered, and
whenever the message is altered. -/
theorem seed_signer_sign_verify (r : Nat) (rel : List Seg) (m : String)
    (s s1 : SeedSigner) (sig : List Nat)
    (hmk : mkSeedSignerWithRoot (some r) rel = .ok s)
    (hsign : s.sign m = .ok (s1, sig)) :
    s1.verify m sig = .ok (s1, true)
    ∧ (∀ i v, i < sig.length → sig[i]? ≠ some v →
        s1.verify m (sig.set i v) = .ok (s1, false))
    ∧ (∀ m2, m2 ≠ m → s1.verify m2 sig = .ok (s1, false)) := by
  obtain ⟨hroot, haccount, hcases⟩ := mkSeedSignerWithRoot_ok r rel s hmk
  rcases hcases with ⟨hrel, hpath⟩ | ⟨hrel, hpath⟩
  · -- the root case: `sign` raises the undefined-path TypeError, so the
    -- hypothesis `hsign` is impossible
    unfold SeedSigner.sign SeedSigner.ensureConnected at hsign
    rw [haccount] at hsign
    unfold SeedSigner.connect at hsign
    rw [hpath] at hsign
    cases hsign
  · have hconn := connect_of_derived r rel s hrel hpath hroot
    have hsigneq : s.sign m
        = .ok ({ s with
                  account := some (privBytes r (Seg.m :: rel)),
                  addr := some (addrOf (privBytes r (Seg.m :: rel))),
                  isActive := true,
                  rawPublicKey := some (pubOf (privBytes r (Seg.m :: rel))),
                  rawPrivateKey := some (privBytes r (Seg.m :: rel)) },
               hexEncode (edSign (privBytes r (Seg.m :: rel)) (utf8Bytes m))) := by
      unfold SeedSigner.sign SeedSigner.ensureConnected
      rw [haccount, hconn]
    rw [hsigneq] at hsign
    injection hsign with hpair
    injection hpair with hs1 hsig
    subst hs1
    subst hsig
    have hver : ∀ (m2 : String) (sg : List Nat),
        SeedSigner.verify
            { s with
                account := some (privBytes r (Seg.m :: rel)),
                addr := some (addrOf (privBytes r (Seg.m :: rel))),
                isActive := true,
                rawPublicKey := some (pubOf (privBytes r (Seg.m :: rel))),
                rawPrivateKey := some (privBytes r (Seg.m :: rel)) } m2 sg
          = .ok ({ s with
                account := some (privBytes r (Seg.m :: rel)),
                addr := some (addrOf (privBytes r (Seg.m :: rel))),
                isActive := true,
                rawPublicKey := some (pubOf (privBytes r (Seg.m :: rel))),
                rawPrivateKey := some (privBytes r (Seg.m :: rel)) },
              edVerify (pubOf (privBytes r (Seg.m :: rel))) (hexDecodePairs sg)
                (utf8Bytes m2)) := by
      intro m2 sg
      rfl
    refine ⟨?_, ?_, ?_⟩
    · rw [hver]
      simp [edVerify, edSign, hex_roundtrip]
    · intro i v hi hnei
      rw [hver]
      have hne := hexEncode_set_decode_ne
        (edSign (privBytes r (Seg.m :: rel)) (utf8Bytes m)) i v hi hnei
      have : edVerify (pubOf (privBytes r (Seg.m :: rel)))
          (hexDecodePairs ((hexEncode (edSign (privBytes r (Seg.m :: rel)) (utf8Bytes m))).set i v))
          (utf8Bytes m) = false := by
        apply beq_eq_false_iff_ne.mpr
        intro hEq
        exact hne (by rw [hEq]; rfl)
      rw [this]
    · intro m2 hm2
      rw [hver, hex_roundtrip]
      have : edVerify (pubOf (privBytes r (Seg.m :: rel)))
          (edSign (privBytes r (Seg.m :: rel)) (utf8Bytes m)) (utf8Bytes m2) = false := by
        apply beq_eq_false_iff_ne.mpr
        intro hEq
        exact hm2 (utf8Bytes_injective (edSignature_msg_injective _ hEq)).symm
      rw [this]

/-- The not-yet-connected derived signer of the C9 witness. -/
def c9fresh : SeedSigner :=
  { root := some 0, account := none, addr := none,
    path := some (solPathBase ++ [Seg.num 0 true]),
    isRoot := false, isActive := false,
    rawPublicKey := none, rawPrivateKey := none }

/-- The C9 witness's private key. -/
def c9priv : List Nat := privBytes 0 [Seg.m, Seg.num 0 true]

/-- The C9 witness's signer once `_connect` ran inside `sign`. -/
def c9live : SeedSigner :=
  { root := some 0, account := some c9priv, addr := some (addrOf c9priv),
    path := some (solPathBase ++ [Seg.num 0 true]),
    isRoot := false, isActive := true,
    rawPublicKey := some (pubOf c9priv), rawPrivateKey := some c9priv }

/-- The C9 witness's signature bytes. -/
def c9sig : List Nat := hexEncode (edSign c9priv (utf8Bytes "ab"))

/-- Witness for C9: at root 0, relative path `0h` and message "ab", the
signer signs and the round trip verifies. -/
theorem seed_signer_sign_verify_witness :
    mkSeedSignerWithRoot (some 0) [Seg.num 0 true] = .ok c9fresh
    ∧ SeedSigner.sign c9fresh "ab" = .ok (c9live, c9sig)
    ∧ SeedSigner.verify c9live "ab" c9sig = .ok (c9live, true) :=
  ⟨rfl, rfl,
   (seed_signer_sign_verify 0 [Seg.num 0 true] "ab" c9fresh c9live c9sig rfl rfl).1⟩

end WdkSolana
